import Mathlib

/-!
Shallow embedding of the trading-gamers client-side store layer:
the Identity Store (userStore), the Listing Store (listingStore) and the
Player Profile Store (playerProfileStore), translated from the TypeScript
source.  JavaScript `string` is modelled by `String` (trim/toLowerCase by
`String.trim`/`String.toLower`, faithful on ASCII data), timestamps
(`Date.now()`, `new Date()`) by a `Nat` parameter supplied by the caller,
and the random id / random placeholder choices by explicit parameters.
The durable localStorage entry under the key "user-session" is modelled as
an `Option SessionRecord` (absence or a JSON parse failure both read back
as `none`, exactly as `getSessionData` treats them).
-/

namespace TradingGamers

/-- Leading- and trailing-whitespace removal on the character list, the
behavior of JS `String.prototype.trim` on ASCII data. -/
def trimChars (l : List Char) : List Char :=
  ((l.dropWhile Char.isWhitespace).reverse.dropWhile Char.isWhitespace).reverse

/-- Name normalization used throughout userStore:
`name.trim().toLowerCase()`, computed on the character list (faithful to the
JS functions on ASCII data). -/
def normalizeName (s : String) : String :=
  String.mk ((trimChars s.data).map Char.toLower)

/-- `UserProfile` from userStore.ts (marketplace revision). Optional fields of
the TS interface are `Option`s. -/
structure UserProfile where
  id : String
  name : String
  passwordHash : Option String := none
  createdAt : Nat := 0
  genres : Option (List String) := none
  games : Option (List String) := none
  playerType : Option String := none
  isAdmin : Option Bool := none
  roles : Option (List String) := none
  deriving Repr, DecidableEq

/-- The durable session record stored in localStorage under "user-session":
`{ userId: string, timestamp: number }`. -/
structure SessionRecord where
  userId : String
  timestamp : Nat
  deriving Repr, DecidableEq

/-- The Identity Store's zustand state (userStore.ts). -/
structure UserState where
  profiles : List UserProfile
  activeProfileId : Option String := none
  viewingProfileId : Option String := none
  authError : Option String := none
  isLoading : Bool := true
  deriving Repr, DecidableEq

/-- Identity-store state together with the durable "user-session" entry,
the two pieces of the world that userStore actions read and write. -/
structure UserWorld where
  state : UserState
  sessionEntry : Option SessionRecord := none
  deriving Repr, DecidableEq

/-- Error message literals from userStore.ts. -/
def errUserNotFound : String := "User not found"

/-- Error set when the matched profile has a falsy `passwordHash`
(the MissingCredential kind). -/
def errMissingCredential : String := "Account authentication error"

/-- Error set when the stored credential does not match (the
InvalidCredential kind). -/
def errInvalidPassword : String := "Invalid password"

/-- Error set by signup on a name collision (the NameTaken kind). -/
def errNameTaken : String := "Username already exists"

/-- `checkSession` from userStore.ts: read the durable record; if present with
a truthy `userId`, restore the session when the user still exists, otherwise
remove the stale entry; always clear `isLoading`. -/
def checkSession (w : UserWorld) : UserWorld :=
  let w1 :=
    match w.sessionEntry with
    | some record =>
        if record.userId ≠ "" then
          -- JS: `if (session && session.userId)`, then verify the user exists
          if w.state.profiles.any (fun p => p.id == record.userId) then
            { w with state := { w.state with activeProfileId := some record.userId } }
          else
            { w with sessionEntry := none }
        else w
    | none => w
  { w1 with state := { w1.state with isLoading := false } }

/-- `login` from userStore.ts.  `now` stands for `Date.now()`.  Returns the
boolean result together with the updated world.  The branch structure follows
the source: clear `authError` and set `isLoading`; find the first profile whose
normalized name matches; fail NotFound when absent; fail with the
MissingCredential error when `!user.passwordHash` (absent or empty string);
fail with the InvalidCredential error when the stored hash differs from the
supplied password; otherwise set the active profile and persist the session. -/
def login (now : Nat) (username password : String) (w : UserWorld) :
    Bool × UserWorld :=
  let s0 := { w.state with authError := none, isLoading := true }
  let normalizedUsername := normalizeName username
  match s0.profiles.find? (fun p => normalizeName p.name == normalizedUsername) with
  | none =>
      (false, { w with state := { s0 with authError := some errUserNotFound, isLoading := false } })
  | some user =>
      match user.passwordHash with
      | none =>
          (false, { w with state := { s0 with authError := some errMissingCredential, isLoading := false } })
      | some h =>
          if h = "" then
            (false, { w with state := { s0 with authError := some errMissingCredential, isLoading := false } })
          else if h ≠ password then
            (false, { w with state := { s0 with authError := some errInvalidPassword, isLoading := false } })
          else
            (true,
              { state := { s0 with activeProfileId := some user.id, isLoading := false },
                sessionEntry := some { userId := user.id, timestamp := now } })

/-- `signup` from userStore.ts.  `newId` stands for the freshly generated id,
`now` for `Date.now()`.  Fails with the NameTaken error on a case-insensitive
collision; otherwise appends the new profile, activates it and persists the
session. -/
def signup (newId : String) (now : Nat) (username password : String) (w : UserWorld) :
    Bool × UserWorld :=
  let s0 := { w.state with authError := none }
  let normalizedUsername := normalizeName username
  let isUnique := !(s0.profiles.any (fun p => normalizeName p.name == normalizedUsername))
  if !isUnique then
    (false, { w with state := { s0 with authError := some errNameTaken } })
  else
    let newProfile : UserProfile :=
      { id := newId, name := username, passwordHash := some password, createdAt := now }
    (true,
      { state := { s0 with profiles := s0.profiles ++ [newProfile], activeProfileId := some newId },
        sessionEntry := some { userId := newId, timestamp := now } })

/-- `isNameUnique` from userStore.ts: no profile other than the excluded one
has the same normalized name.  `excludeId = none` models the parameter being
omitted (`profile.id !== undefined` is then always true). -/
def isNameUnique (profiles : List UserProfile) (name : String) (excludeId : Option String) :
    Bool :=
  let normalized := normalizeName name
  !(profiles.any (fun p => (some p.id != excludeId) && (normalizeName p.name == normalized)))

/-- `getCurrentUser` from userStore.ts: `null` when `activeProfileId` is falsy
(absent or the empty string), otherwise the first profile with that id. -/
def getCurrentUser (s : UserState) : Option UserProfile :=
  match s.activeProfileId with
  | none => none
  | some pid => if pid = "" then none else s.profiles.find? (fun p => p.id == pid)

/-! ### Listing Store (listingStore.ts) -/

/-- `ListingType` enum. -/
inductive ListingType where
  | sell | buy | trade | offerService | requestService
  deriving Repr, DecidableEq

/-- The union `ItemCategory | ServiceCategory`.  Both enums are string-valued
and both contain `'other'`, so in JS the union has nine distinct values. -/
inductive Category where
  | videoGame | boardGame | console | accessory | collectible
  | coaching | gameMaster | mediation | other
  deriving Repr, DecidableEq

/-- `ItemCondition` enum. -/
inductive ItemCondition where
  | new | likeNew | good | fair | forParts
  deriving Repr, DecidableEq

/-- Listing status union type. -/
inductive ListingStatus where
  | active | pending | sold | inactive
  deriving Repr, DecidableEq

/-- `ListingImage` interface. -/
structure ListingImage where
  id : String
  url : String
  isPrimary : Bool
  deriving Repr, DecidableEq

/-- The `Listing` interface. -/
structure Listing where
  id : String
  createdAt : Nat
  updatedAt : Nat
  sellerId : String
  sellerName : String
  title : String
  shortDescription : String
  detailedDescription : String
  listingType : ListingType
  category : Category
  price : String
  condition : Option ItemCondition := none
  location : String
  isRemote : Bool
  contactInfo : String
  tags : List String
  images : List ListingImage
  status : ListingStatus
  deriving Repr, DecidableEq

/-- `ListingFormData`: the full form payload used by `createListing`. -/
structure ListingFormData where
  listingType : ListingType
  category : Category
  title : String
  shortDescription : String
  detailedDescription : String
  price : String
  condition : Option ItemCondition := none
  location : String
  isRemote : Bool
  contactInfo : String
  tags : String
  deriving Repr, DecidableEq

/-- `Partial<ListingFormData>` as used by `updateListing`: `none` models a
field absent from the object (an explicitly-`undefined` field behaves the
same way for every use the store makes of the patch). -/
structure ListingFormPatch where
  listingType : Option ListingType := none
  category : Option Category := none
  title : Option String := none
  shortDescription : Option String := none
  detailedDescription : Option String := none
  price : Option String := none
  condition : Option ItemCondition := none
  location : Option String := none
  isRemote : Option Bool := none
  contactInfo : Option String := none
  tags : Option String := none
  deriving Repr, DecidableEq

/-- The `File` argument of image uploads.  `createMockImageUrl` only inspects
the file name and an optionally attached `customUrl` property. -/
structure ImageFile where
  name : String
  customUrl : Option String := none
  deriving Repr, DecidableEq

/-- The Listing Store's zustand state. -/
structure ListingState where
  listings : List Listing
  isLoading : Bool := false
  error : Option String := none
  deriving Repr, DecidableEq

/-- One hexadecimal digit, upper case, as produced by `encodeURIComponent`. -/
def hexDigit (n : Nat) : Char :=
  if n < 10 then Char.ofNat (48 + n) else Char.ofNat (55 + n)

/-- Characters `encodeURIComponent` leaves unescaped. -/
def isUriUnreserved (c : Char) : Bool :=
  c.isAlphanum || c = '-' || c = '_' || c = '.' || c = '!' || c = '~' ||
    c = '*' || c = Char.ofNat 39 || c = '(' || c = ')'

/-- JS `encodeURIComponent`: unreserved characters pass through, every other
character is replaced by the percent-encoding of its UTF-8 bytes. -/
def encodeURIComponent (s : String) : String :=
  String.mk (s.data.flatMap (fun c =>
    if isUriUnreserved c then [c]
    else (String.toUTF8 (String.mk [c])).toList.flatMap (fun b =>
      ['%', hexDigit (b.toNat / 16), hexDigit (b.toNat % 16)])))

/-- `createMockImageUrl`: use the attached `customUrl` when the property is
present, otherwise a placeholder URL built from the file name. -/
def createMockImageUrl (f : ImageFile) : String :=
  match f.customUrl with
  | some u => u
  | none => "https://placehold.co/300x200?text=" ++ encodeURIComponent f.name

/-- The pool of game names `createDefaultImage` draws from. -/
def gameNames : List String :=
  ["Zelda", "Mario", "Minecraft", "Fortnite", "Pokemon", "FIFA"]

/-- `createDefaultImage`: a synthesized placeholder image, flagged primary.
`newId` stands for the generated id and `gameIdx` for the random index into
`gameNames`. -/
def createDefaultImage (newId : String) (gameIdx : Fin gameNames.length) :
    ListingImage :=
  { id := newId,
    url := "https://placehold.co/300x200?text=" ++ encodeURIComponent (gameNames.get gameIdx),
    isPrimary := true }

/-- JS `String.prototype.split(',')` on the character list: every comma ends
a chunk, so `""` yields `[""]` and adjacent commas yield empty chunks. -/
def splitComma : List Char → List Char → List (List Char)
  | [], acc => [acc.reverse]
  | c :: rest, acc =>
      if c = ',' then acc.reverse :: splitComma rest []
      else splitComma rest (c :: acc)

/-- Tag-string processing: `tags.split(',').map(t => t.trim()).filter(Boolean)`. -/
def parseTags (s : String) : List String :=
  ((splitComma s.data []).map (fun t => String.mk (trimChars t))).filter
    (fun t => t ≠ "")

/-- `{...listing, ...formData}`: fields present in the patch replace the
listing's fields (the `tags`, `images` and `updatedAt` fields are overridden
afterwards by `updateListing` and are not handled here). -/
def applyPatch (L : Listing) (p : ListingFormPatch) : Listing :=
  { L with
    listingType := p.listingType.getD L.listingType,
    category := p.category.getD L.category,
    title := p.title.getD L.title,
    shortDescription := p.shortDescription.getD L.shortDescription,
    detailedDescription := p.detailedDescription.getD L.detailedDescription,
    price := p.price.getD L.price,
    condition := match p.condition with | some c => some c | none => L.condition,
    location := p.location.getD L.location,
    isRemote := p.isRemote.getD L.isRemote,
    contactInfo := p.contactInfo.getD L.contactInfo }

/-- Error message literals from listingStore.ts. -/
def errNotLoggedInCreate : String := "You must be logged in to create a listing"

/-- Error thrown by `updateListing` when no user is logged in. -/
def errNotLoggedInUpdate : String := "You must be logged in to update a listing"

/-- Error thrown by `deleteListing` when no user is logged in. -/
def errNotLoggedInDelete : String := "You must be logged in to delete a listing"

/-- Error thrown by `setListingStatus` when no user is logged in. -/
def errNotLoggedInStatus : String := "You must be logged in to update a listing status"

/-- Error thrown when the target listing does not exist. -/
def errListingNotFound : String := "Listing not found"

/-- Ownership error of `updateListing` and `setListingStatus`. -/
def errNotOwnerUpdate : String := "You can only update your own listings"

/-- Ownership error of `deleteListing`. -/
def errNotOwnerDelete : String := "You can only delete your own listings"

/-- `getListingById` selector: first listing with the given id. -/
def getListingById (s : ListingState) (id : String) : Option Listing :=
  s.listings.find? (fun l => l.id == id)

/-- The sources of nondeterminism consumed by `createListing`: the clock, the
generated listing id, the id generated for the i-th uploaded image, and the
id and random game pick of the default image. -/
structure CreateEnv where
  now : Nat
  listingId : String
  imageIdAt : Nat → String
  defaultImageId : String
  gameIdx : Fin gameNames.length

/-- `createListing` from listingStore.ts.  On failure the source throws after
recording the message into the store's `error` field; the thrown message is
returned as `Except.error`.  `us` is the Identity Store state read through
`useUserStore.getState()`. -/
def createListing (env : CreateEnv) (us : UserState) (formData : ListingFormData)
    (imageFiles : List ImageFile) (s : ListingState) :
    Except String Listing × ListingState :=
  match getCurrentUser us with
  | none =>
      (Except.error errNotLoggedInCreate,
        { s with error := some errNotLoggedInCreate, isLoading := false })
  | some currentUser =>
      let tagsArray := if formData.tags ≠ "" then parseTags formData.tags else []
      let images : List ListingImage :=
        if imageFiles.length > 0 then
          (imageFiles.enum).map (fun fi =>
            { id := env.imageIdAt fi.1, url := createMockImageUrl fi.2,
              isPrimary := fi.1 = 0 })
        else
          [createDefaultImage env.defaultImageId env.gameIdx]
      let newListing : Listing :=
        { id := env.listingId,
          createdAt := env.now,
          updatedAt := env.now,
          sellerId := currentUser.id,
          sellerName := currentUser.name,
          title := formData.title,
          shortDescription := formData.shortDescription,
          detailedDescription := formData.detailedDescription,
          listingType := formData.listingType,
          category := formData.category,
          price := formData.price,
          condition := formData.condition,
          location := formData.location,
          isRemote := formData.isRemote,
          contactInfo := formData.contactInfo,
          tags := tagsArray,
          images := images,
          status := ListingStatus.active }
      (Except.ok newListing,
        { s with listings := s.listings ++ [newListing], isLoading := false, error := none })

/-- Nondeterminism consumed by `updateListing`: the clock and the ids
generated for appended images. -/
structure UpdateEnv where
  now : Nat
  imageIdAt : Nat → String

/-- The image descriptors `updateListing` builds for newly uploaded files:
every appended image has `isPrimary := false`. -/
def mkAppendedImages (env : UpdateEnv) (imageFiles : List ImageFile) : List ListingImage :=
  (imageFiles.enum).map (fun fi =>
    { id := env.imageIdAt fi.1, url := createMockImageUrl fi.2, isPrimary := false })

/-- In-place promotion `updatedImages[0].isPrimary = true`. -/
def promoteFirst : List ListingImage → List ListingImage
  | [] => []
  | img :: rest => { img with isPrimary := true } :: rest

/-- The repair step of `updateListing`:
`if (!updatedImages.some(img => img.isPrimary) && updatedImages.length > 0)`
promote the first image, otherwise keep the list as is. -/
def repairPrimary (imgs : List ListingImage) : List ListingImage :=
  if !(imgs.any (fun img => img.isPrimary)) && imgs.length > 0 then promoteFirst imgs
  else imgs

/-- `updateListing` from listingStore.ts.  Returns `none` (with the error
recorded) when no user is logged in, the listing is absent, or the acting
user does not own it; otherwise merges the patch, re-derives tags when the
patch carries a tag string, appends the new images and repairs the primary
flag when no image is primary afterwards. -/
def updateListing (env : UpdateEnv) (us : UserState) (id : String)
    (formData : ListingFormPatch) (imageFiles : List ImageFile) (s : ListingState) :
    Option Listing × ListingState :=
  match getCurrentUser us with
  | none => (none, { s with error := some errNotLoggedInUpdate, isLoading := false })
  | some currentUser =>
      match getListingById s id with
      | none => (none, { s with error := some errListingNotFound, isLoading := false })
      | some listing =>
          if listing.sellerId ≠ currentUser.id then
            (none, { s with error := some errNotOwnerUpdate, isLoading := false })
          else
            let tagsArray := match formData.tags with
              | some t => parseTags t
              | none => listing.tags
            let updatedImages :=
              if imageFiles.length > 0 then
                repairPrimary (listing.images ++ mkAppendedImages env imageFiles)
              else listing.images
            let updatedListing : Listing :=
              { applyPatch listing formData with
                tags := tagsArray, images := updatedImages, updatedAt := env.now }
            (some updatedListing,
              { s with
                listings := s.listings.map (fun l => if l.id == id then updatedListing else l),
                isLoading := false, error := none })

/-- `deleteListing` from listingStore.ts: same authorization checks, then
removes every listing with the given id. -/
def deleteListing (us : UserState) (id : String) (s : ListingState) :
    Bool × ListingState :=
  match getCurrentUser us with
  | none => (false, { s with error := some errNotLoggedInDelete, isLoading := false })
  | some currentUser =>
      match getListingById s id with
      | none => (false, { s with error := some errListingNotFound, isLoading := false })
      | some listing =>
          if listing.sellerId ≠ currentUser.id then
            (false, { s with error := some errNotOwnerDelete, isLoading := false })
          else
            (true,
              { s with
                listings := s.listings.filter (fun l => l.id != id),
                isLoading := false, error := none })

/-- `setListingStatus` from listingStore.ts: same authorization checks, then
rewrites the status and update timestamp of every listing with the given id. -/
def setListingStatus (now : Nat) (us : UserState) (id : String)
    (status : ListingStatus) (s : ListingState) : Bool × ListingState :=
  match getCurrentUser us with
  | none => (false, { s with error := some errNotLoggedInStatus, isLoading := false })
  | some currentUser =>
      match getListingById s id with
      | none => (false, { s with error := some errListingNotFound, isLoading := false })
      | some listing =>
          if listing.sellerId ≠ currentUser.id then
            (false, { s with error := some errNotOwnerUpdate, isLoading := false })
          else
            (true,
              { s with
                listings := s.listings.map (fun l =>
                  if l.id == id then { l with status := status, updatedAt := now } else l),
                isLoading := false, error := none })

/-! ### Player Profile Store (playerProfileStore.ts) -/

/-- `PlayerRole` enum from the playerProfile types used by the store. -/
inductive PlayerRole where
  | buyer | seller | serviceProvider | admin | regular
  deriving Repr, DecidableEq

/-- The `PlayerProfile` projection as the store builds it: identity fields
copied from the `UserProfile`, a blank email, a role derived from `isAdmin`,
and `Date` timestamps modelled as `Nat`. -/
structure PlayerProfile where
  id : String
  username : String
  displayName : String
  email : String
  role : PlayerRole
  createdAt : Nat
  updatedAt : Nat
  genres : Option (List String) := none
  games : Option (List String) := none
  playerType : Option String := none
  deriving Repr, DecidableEq

/-- `Partial<PlayerProfile>` for `updateProfile`: `none` models an absent
field. -/
structure PlayerProfilePatch where
  id : Option String := none
  username : Option String := none
  displayName : Option String := none
  email : Option String := none
  role : Option PlayerRole := none
  createdAt : Option Nat := none
  updatedAt : Option Nat := none
  genres : Option (List String) := none
  games : Option (List String) := none
  playerType : Option String := none
  deriving Repr, DecidableEq

/-- The Player Profile Store's zustand state. -/
structure PlayerProfileState where
  profile : Option PlayerProfile := none
  isLoading : Bool := false
  error : Option String := none
  isAuthenticated : Bool := false
  session : Option SessionRecord := none
  deriving Repr, DecidableEq

/-- The combined world the two stores and localStorage form: the Identity
Store slice, the durable "user-session" entry, and the Player Profile Store
slice. -/
structure AppWorld where
  userState : UserState
  sessionEntry : Option SessionRecord := none
  playerState : PlayerProfileState
  deriving Repr, DecidableEq

/-- `{ ...state.profile, ...updates, updatedAt: new Date() }`: patch fields
replace profile fields and `updatedAt` is always refreshed to `now`. -/
def mergeProfile (p : PlayerProfile) (u : PlayerProfilePatch) (now : Nat) :
    PlayerProfile :=
  { id := u.id.getD p.id,
    username := u.username.getD p.username,
    displayName := u.displayName.getD p.displayName,
    email := u.email.getD p.email,
    role := u.role.getD p.role,
    createdAt := u.createdAt.getD p.createdAt,
    updatedAt := now,
    genres := match u.genres with | some g => some g | none => p.genres,
    games := match u.games with | some g => some g | none => p.games,
    playerType := match u.playerType with | some t => some t | none => p.playerType }

/-- `updateProfile` of playerProfileStore.ts: merge into the local projection
when one is loaded (leaving it `null` otherwise) and clear the error field.
The body is a zustand `set` on the player store alone; the Identity Store
slice and the durable session entry are not read or written. -/
def updateProfile (now : Nat) (u : PlayerProfilePatch) (w : AppWorld) : AppWorld :=
  { w with playerState :=
      { w.playerState with
        profile := w.playerState.profile.map (fun p => mergeProfile p u now),
        error := none } }

/-- Error set by `fetchProfileFromUser` when the Identity Store has no active
profile id. -/
def errNoActiveUser : String := "No active user found"

/-- Error set by `fetchProfileFromUser` when the active id matches no profile. -/
def errProfileNotFound : String := "User profile not found"

/-- The projection `fetchProfileFromUser` builds from a `UserProfile`:
`isAdmin` truthy maps to the admin role, email is left blank, `updatedAt` is
the current time. -/
def profileFromUser (now : Nat) (up : UserProfile) : PlayerProfile :=
  { id := up.id,
    username := up.name,
    displayName := up.name,
    email := "",
    role := if up.isAdmin = some true then PlayerRole.admin else PlayerRole.regular,
    createdAt := up.createdAt,
    updatedAt := now,
    genres := up.genres,
    games := up.games,
    playerType := up.playerType }

/-- `fetchProfileFromUser` of playerProfileStore.ts: read the Identity Store
state; record an error when no active id is set (falsy, so also when it is
the empty string) or when it matches no profile; otherwise store the derived
projection.  `isLoading` ends false on every path (the `finally` block). -/
def fetchProfileFromUser (now : Nat) (us : UserState) (s : PlayerProfileState) :
    PlayerProfileState :=
  let base := { s with isLoading := true }
  match us.activeProfileId with
  | none => { base with error := some errNoActiveUser, isLoading := false }
  | some userId =>
      if userId = "" then
        { base with error := some errNoActiveUser, isLoading := false }
      else
        match us.profiles.find? (fun p => p.id == userId) with
        | none => { base with error := some errProfileNotFound, isLoading := false }
        | some up =>
            { base with
              profile := some (profileFromUser now up),
              error := none, isLoading := false }

/-- `checkSession` of playerProfileStore.ts: parse the durable entry; when a
record with a truthy `userId` is present, mark the store authenticated, keep
the record as the session and derive the projection; otherwise clear the
authentication flags.  The durable entry itself is never written or removed
by this store. -/
def playerCheckSession (now : Nat) (w : AppWorld) : AppWorld :=
  match w.sessionEntry with
  | some record =>
      if record.userId ≠ "" then
        let s1 := { w.playerState with isAuthenticated := true, session := some record }
        { w with playerState := fetchProfileFromUser now w.userState s1 }
      else
        { w with playerState :=
            { w.playerState with isAuthenticated := false, session := none } }
  | none =>
      { w with playerState :=
          { w.playerState with isAuthenticated := false, session := none } }

/-! ### Theorems -/

/-- C7: for every name, optional excluded id and profile set, `isNameUnique`
returns true iff no profile other than the excluded one has the same trimmed,
case-folded name. -/
theorem isNameUnique_iff (profiles : List UserProfile) (name : String)
    (excludeId : Option String) :
    isNameUnique profiles name excludeId = true ↔
      ∀ p ∈ profiles, some p.id ≠ excludeId →
        normalizeName p.name ≠ normalizeName name := by
  simp only [isNameUnique, Bool.not_eq_true', List.any_eq_false, Bool.and_eq_true,
    bne_iff_ne, beq_iff_eq, ne_eq, not_and]

/-- C9: `updateProfile` on the Player Profile Store only rewrites the local
projection — it merges the patch and stamps `updatedAt` with the current
time when a profile is loaded, keeps `none` otherwise, and leaves the
Identity Store state and the durable session entry untouched. -/
theorem updateProfile_local_only (now : Nat) (u : PlayerProfilePatch) (w : AppWorld) :
    (updateProfile now u w).userState = w.userState ∧
    (updateProfile now u w).sessionEntry = w.sessionEntry ∧
    (updateProfile now u w).playerState.profile =
      w.playerState.profile.map (fun p => mergeProfile p u now) ∧
    ∀ p : PlayerProfile, (mergeProfile p u now).updatedAt = now :=
  ⟨rfl, rfl, rfl, fun _ => rfl⟩

/-- C5: `signup` under a case-insensitive name collision returns false, sets
the NameTaken error, and leaves the profile set, the active session and the
durable entry unchanged. -/
theorem signup_name_taken_fails (newId : String) (now : Nat)
    (username password : String) (w : UserWorld) (p : UserProfile)
    (hp : p ∈ w.state.profiles)
    (hname : normalizeName p.name = normalizeName username) :
    (signup newId now username password w).1 = false ∧
    (signup newId now username password w).2.state.profiles = w.state.profiles ∧
    (signup newId now username password w).2.state.activeProfileId = w.state.activeProfileId ∧
    (signup newId now username password w).2.sessionEntry = w.sessionEntry ∧
    (signup newId now username password w).2.state.authError = some errNameTaken := by
  have hany : w.state.profiles.any
      (fun q => normalizeName q.name == normalizeName username) = true := by
    rw [List.any_eq_true]
    exact ⟨p, hp, by simp [hname]⟩
  simp [signup, hany]

/-- The first profile registered in the demonstration worlds. -/
def aliceProfile : UserProfile :=
  { id := "u1", name := "Alice", passwordHash := some "secret1", createdAt := 0 }

/-- An identity-store world holding exactly Alice's profile, nobody logged in. -/
def aliceWorld : UserWorld :=
  { state := { profiles := [aliceProfile] } }

/-- Witness for C5: signing up as "alice" while "Alice" exists fails with the
NameTaken error and changes nothing. -/
theorem signup_name_taken_fails_witness :
    (signup "u2" 1 "alice" "secret2" aliceWorld).1 = false ∧
    (signup "u2" 1 "alice" "secret2" aliceWorld).2.state.profiles = aliceWorld.state.profiles ∧
    (signup "u2" 1 "alice" "secret2" aliceWorld).2.state.activeProfileId = aliceWorld.state.activeProfileId ∧
    (signup "u2" 1 "alice" "secret2" aliceWorld).2.sessionEntry = aliceWorld.sessionEntry ∧
    (signup "u2" 1 "alice" "secret2" aliceWorld).2.state.authError = some errNameTaken :=
  signup_name_taken_fails "u2" 1 "alice" "secret2" aliceWorld aliceProfile
    (by simp [aliceWorld]) (by decide)

/-- C8: a failed `login` never changes the active session nor the durable
"user-session" entry — in particular a failed attempt while somebody is
logged in does not log them out. -/
theorem failed_login_preserves_session (now : Nat) (username password : String)
    (w : UserWorld)
    (hfail : (login now username password w).1 = false) :
    (login now username password w).2.state.activeProfileId = w.state.activeProfileId ∧
    (login now username password w).2.sessionEntry = w.sessionEntry := by
  rcases h1 : w.state.profiles.find?
      (fun p => normalizeName p.name == normalizeName username) with _ | user
  · constructor <;> simp [login, h1]
  · rcases h2 : user.passwordHash with _ | h
    · constructor <;> simp [login, h1, h2]
    · by_cases h3 : h = ""
      · constructor <;> simp [login, h1, h2, h3]
      · by_cases h4 : h = password
        · exfalso
          rw [h4] at h2 h3
          have hsucc : (login now username password w).1 = true := by
            simp [login, h1, h2, h3]
          rw [hsucc] at hfail
          exact Bool.noConfusion hfail
        · constructor <;> simp [login, h1, h2, h3, h4]

/-- A world in which Alice is logged in with a live durable session. -/
def aliceLoggedInWorld : UserWorld :=
  { state := { profiles := [aliceProfile], activeProfileId := some "u1" },
    sessionEntry := some { userId := "u1", timestamp := 0 } }

/-- Witness for C8: a login attempt with a wrong password while Alice is
logged in leaves her session and the durable entry intact. -/
theorem failed_login_preserves_session_witness :
    (login 7 "Alice" "wrong" aliceLoggedInWorld).2.state.activeProfileId
        = aliceLoggedInWorld.state.activeProfileId ∧
    (login 7 "Alice" "wrong" aliceLoggedInWorld).2.sessionEntry
        = aliceLoggedInWorld.sessionEntry :=
  failed_login_preserves_session 7 "Alice" "wrong" aliceLoggedInWorld (by decide)

/-- A world whose durable session record carries the empty-string user id,
which matches no profile (there are none). -/
def blankSessionWorld : UserWorld :=
  { state := { profiles := [] },
    sessionEntry := some { userId := "", timestamp := 0 } }

/-- C6 counterexample: the durable record `{userId: "", timestamp: 0}`
references no existing profile, yet `checkSession` does not purge it —
`session.userId` is falsy, so the removal branch is never reached. -/
theorem checkSession_blank_userId_counterexample :
    (∀ p ∈ blankSessionWorld.state.profiles,
        p.id ≠ (blankSessionWorld.sessionEntry.map SessionRecord.userId).getD "x") ∧
    (checkSession blankSessionWorld).sessionEntry =
      some { userId := "", timestamp := 0 } := by
  constructor
  · intro p hp
    simp [blankSessionWorld] at hp
  · rfl

/-- C6 (amended): for a durable session record with a non-empty `userId`
matching no profile, `checkSession` leaves the active session empty and
removes the stale "user-session" entry. -/
theorem checkSession_dangling_purged (w : UserWorld) (r : SessionRecord)
    (hrec : w.sessionEntry = some r) (hne : r.userId ≠ "")
    (hdangling : ∀ p ∈ w.state.profiles, p.id ≠ r.userId)
    (hact : w.state.activeProfileId = none) :
    (checkSession w).state.activeProfileId = none ∧
    (checkSession w).sessionEntry = none := by
  have hany : w.state.profiles.any (fun p => p.id == r.userId) = false := by
    rw [List.any_eq_false]
    intro p hp
    simp [hdangling p hp]
  simp [checkSession, hrec, hne, hany, hact]

/-- A world whose durable record references the deleted user id "ghost"
while only Alice's profile exists. -/
def danglingSessionWorld : UserWorld :=
  { state := { profiles := [aliceProfile] },
    sessionEntry := some { userId := "ghost", timestamp := 3 } }

/-- Witness for the amended C6: restoring from a record for the deleted id
"ghost" yields no active session and purges the entry. -/
theorem checkSession_dangling_purged_witness :
    (checkSession danglingSessionWorld).state.activeProfileId = none ∧
    (checkSession danglingSessionWorld).sessionEntry = none :=
  checkSession_dangling_purged danglingSessionWorld { userId := "ghost", timestamp := 3 }
    rfl (by decide) (by decide) rfl

/-- C10: the Player Profile Store's `checkSession` marks the store
authenticated and keeps the parsed record as the session for every durable
record with a (non-empty) `userId`, without consulting the Identity Store's
profile set — the dangling record is neither rejected nor removed, and the
Identity Store state is untouched. -/
theorem playerCheckSession_no_validation (now : Nat) (w : AppWorld)
    (r : SessionRecord) (hrec : w.sessionEntry = some r) (hne : r.userId ≠ "") :
    (playerCheckSession now w).playerState.isAuthenticated = true ∧
    (playerCheckSession now w).playerState.session = some r ∧
    (playerCheckSession now w).sessionEntry = w.sessionEntry ∧
    (playerCheckSession now w).userState = w.userState := by
  have hkeep : ∀ (us : UserState) (s : PlayerProfileState),
      (fetchProfileFromUser now us s).isAuthenticated = s.isAuthenticated ∧
      (fetchProfileFromUser now us s).session = s.session := by
    intro us s
    unfold fetchProfileFromUser
    rcases us.activeProfileId with _ | uid
    · exact ⟨rfl, rfl⟩
    · dsimp only
      by_cases h : uid = ""
      · simp [h]
      · simp only [if_neg h]
        rcases hfind : us.profiles.find? (fun p => p.id == uid) with _ | up <;>
          simp [hfind]
  unfold playerCheckSession
  rw [hrec]
  dsimp only
  rw [if_pos hne]
  exact ⟨(hkeep w.userState _).1, (hkeep w.userState _).2, rfl, rfl⟩

/-- An app world whose durable record references a deleted user while the
Identity Store knows only Alice. -/
def danglingAppWorld : AppWorld :=
  { userState := { profiles := [aliceProfile] },
    sessionEntry := some { userId := "ghost", timestamp := 3 },
    playerState := {} }

/-- Witness for C10: with a record for the deleted id "ghost", the player
store still reports itself authenticated and keeps the record. -/
theorem playerCheckSession_no_validation_witness :
    (playerCheckSession 9 danglingAppWorld).playerState.isAuthenticated = true ∧
    (playerCheckSession 9 danglingAppWorld).playerState.session =
      some { userId := "ghost", timestamp := 3 } ∧
    (playerCheckSession 9 danglingAppWorld).sessionEntry = danglingAppWorld.sessionEntry ∧
    (playerCheckSession 9 danglingAppWorld).userState = danglingAppWorld.userState :=
  playerCheckSession_no_validation 9 danglingAppWorld
    { userId := "ghost", timestamp := 3 } rfl (by decide)

/-- A profile whose stored credential is the empty string — reachable through
`signup(name, "")`. -/
def bobProfile : UserProfile :=
  { id := "u1", name := "bob", passwordHash := some "", createdAt := 0 }

/-- An identity-store world holding exactly Bob's profile. -/
def bobWorld : UserWorld :=
  { state := { profiles := [bobProfile] } }

/-- C2 counterexample: Bob's profile is the match for "bob" and carries a
stored credential (the empty string) that is not exactly equal to the
supplied credential "wrongpw", yet `login` fails with the MissingCredential
error rather than the InvalidCredential one — `!user.passwordHash` is true
for the empty string. -/
theorem login_empty_credential_counterexample :
    bobWorld.state.profiles.find?
        (fun p => normalizeName p.name == normalizeName "bob") = some bobProfile ∧
    bobProfile.passwordHash = some "" ∧
    bobProfile.passwordHash ≠ some "wrongpw" ∧
    (login 0 "bob" "wrongpw" bobWorld).1 = false ∧
    (login 0 "bob" "wrongpw" bobWorld).2.state.authError = some errMissingCredential ∧
    errMissingCredential ≠ errInvalidPassword := by
  decide

/-- C2 (amended): the `login` error taxonomy.  When no profile's normalized
name matches, login fails NotFound; when the first matching profile's stored
credential is absent or empty, login fails with the MissingCredential error;
when the stored credential is non-empty and differs from the supplied one,
login fails with the InvalidCredential error; when the stored credential is
the (non-empty) supplied credential, login succeeds; and login succeeds only
when a match exists whose stored credential equals the supplied one exactly. -/
theorem login_error_taxonomy (now : Nat) (username password : String) (w : UserWorld) :
    (w.state.profiles.find?
        (fun p => normalizeName p.name == normalizeName username) = none →
      (login now username password w).1 = false ∧
      (login now username password w).2.state.authError = some errUserNotFound) ∧
    (∀ u, w.state.profiles.find?
        (fun p => normalizeName p.name == normalizeName username) = some u →
      ((u.passwordHash = none ∨ u.passwordHash = some "") →
        (login now username password w).1 = false ∧
        (login now username password w).2.state.authError = some errMissingCredential) ∧
      (∀ h, u.passwordHash = some h → h ≠ "" → h ≠ password →
        (login now username password w).1 = false ∧
        (login now username password w).2.state.authError = some errInvalidPassword) ∧
      (u.passwordHash = some password → password ≠ "" →
        (login now username password w).1 = true ∧
        (login now username password w).2.state.activeProfileId = some u.id)) ∧
    ((login now username password w).1 = true →
      ∃ u, w.state.profiles.find?
          (fun p => normalizeName p.name == normalizeName username) = some u ∧
        u.passwordHash = some password) := by
  refine ⟨?_, ?_, ?_⟩
  · intro hnone
    constructor <;> simp [login, hnone]
  · intro u hu
    refine ⟨?_, ?_, ?_⟩
    · rintro (hph | hph) <;> constructor <;> simp [login, hu, hph]
    · intro h hph hne hnep
      constructor <;> simp [login, hu, hph, hne, hnep]
    · intro hph hne
      constructor <;> simp [login, hu, hph, hne]
  · intro hsucc
    rcases h1 : w.state.profiles.find?
        (fun p => normalizeName p.name == normalizeName username) with _ | u
    · simp [login, h1] at hsucc
    · refine ⟨u, h1, ?_⟩
      rcases h2 : u.passwordHash with _ | h
      · simp [login, h1, h2] at hsucc
      · by_cases h3 : h = ""
        · simp [login, h1, h2, h3] at hsucc
        · by_cases h4 : h = password
          · simp [h2, h4]
          · simp [login, h1, h2, h3, h4] at hsucc

/-- Witness for the amended C2: logging in as Alice with a wrong password
fails with the InvalidCredential error. -/
theorem login_error_taxonomy_witness :
    (login 0 "Alice" "bad" aliceWorld).1 = false ∧
    (login 0 "Alice" "bad" aliceWorld).2.state.authError = some errInvalidPassword :=
  ((login_error_taxonomy 0 "Alice" "bad" aliceWorld).2.1 aliceProfile (by decide)).2.1
    "secret1" rfl (by decide) (by decide)

/-- C3: `createListing` with an empty image list while a user is logged in
produces a listing whose image list is exactly the one synthesized placeholder
image, flagged primary, and appends the listing to the store with status
active and the current user as seller. -/
theorem createListing_no_images_default_primary (env : CreateEnv) (us : UserState)
    (formData : ListingFormData) (s : ListingState) (u : UserProfile)
    (hcur : getCurrentUser us = some u) :
    ∃ nl, (createListing env us formData [] s).1 = Except.ok nl ∧
      nl.images = [createDefaultImage env.defaultImageId env.gameIdx] ∧
      nl.images.length = 1 ∧
      (∀ img ∈ nl.images, img.isPrimary = true) ∧
      nl.status = ListingStatus.active ∧
      nl.sellerId = u.id ∧
      (createListing env us formData [] s).2.listings = s.listings ++ [nl] := by
  unfold createListing
  rw [hcur]
  dsimp only
  rw [if_neg (show ¬(([] : List ImageFile).length > 0) by simp)]
  exact ⟨_, rfl, rfl, rfl, by simp [createDefaultImage], rfl, rfl, rfl⟩

/-- A user-store state in which Alice is logged in. -/
def aliceActiveState : UserState :=
  { profiles := [aliceProfile], activeProfileId := some "u1" }

/-- A fully concrete form payload for the witnesses. -/
def demoFormData : ListingFormData :=
  { listingType := ListingType.sell, category := Category.videoGame,
    title := "Test", shortDescription := "s", detailedDescription := "d",
    price := "10", location := "X", isRemote := false,
    contactInfo := "y@z", tags := "" }

/-- Concrete nondeterminism for `createListing` in the witnesses. -/
def demoCreateEnv : CreateEnv :=
  { now := 2, listingId := "L1", imageIdAt := fun _ => "img",
    defaultImageId := "D1", gameIdx := ⟨0, by decide⟩ }

/-- Witness for C3: Alice creating a listing with no images gets exactly one
primary placeholder image, an active status and herself as seller. -/
theorem createListing_no_images_default_primary_witness :
    ∃ nl, (createListing demoCreateEnv aliceActiveState demoFormData []
        { listings := [] }).1 = Except.ok nl ∧
      nl.images = [createDefaultImage demoCreateEnv.defaultImageId demoCreateEnv.gameIdx] ∧
      nl.images.length = 1 ∧
      (∀ img ∈ nl.images, img.isPrimary = true) ∧
      nl.status = ListingStatus.active ∧
      nl.sellerId = aliceProfile.id ∧
      (createListing demoCreateEnv aliceActiveState demoFormData []
        { listings := [] }).2.listings = [] ++ [nl] :=
  createListing_no_images_default_primary demoCreateEnv aliceActiveState demoFormData
    { listings := [] } aliceProfile (by decide)

/-- With unique listing ids, `getListingById` resolves a stored listing to
itself. -/
theorem getListingById_unique (s : ListingState) (L : Listing)
    (hmem : L ∈ s.listings) (huniq : ∀ L2 ∈ s.listings, L2.id = L.id → L2 = L) :
    getListingById s L.id = some L := by
  unfold getListingById
  rcases h : s.listings.find? (fun l => l.id == L.id) with _ | L2
  · exfalso
    have hex : ∃ l ∈ s.listings, (fun l : Listing => l.id == L.id) l = true :=
      ⟨L, hmem, by simp⟩
    rw [← List.find?_isSome] at hex
    rw [h] at hex
    simp at hex
  · have h2 := List.find?_some h
    have hm : L2 ∈ s.listings := List.mem_of_find?_eq_some h
    rw [beq_iff_eq] at h2
    rw [h]
    exact congrArg some (huniq L2 hm h2)

/-- C1: every mutating listing operation invoked by an authenticated user who
is not the listing's seller fails — `updateListing` returns `none`, the other
two return `false`, each records its ownership error — and the listings
collection, hence the target listing, is unchanged. -/
theorem mutations_by_non_owner_fail (uenv : UpdateEnv) (now : Nat) (us : UserState)
    (patch : ListingFormPatch) (files : List ImageFile) (st : ListingStatus)
    (s : ListingState) (L : Listing) (actor : UserProfile)
    (hmem : L ∈ s.listings) (huniq : ∀ L2 ∈ s.listings, L2.id = L.id → L2 = L)
    (hcur : getCurrentUser us = some actor) (hne : actor.id ≠ L.sellerId) :
    ((updateListing uenv us L.id patch files s).1 = none ∧
      (updateListing uenv us L.id patch files s).2.listings = s.listings ∧
      (updateListing uenv us L.id patch files s).2.error = some errNotOwnerUpdate) ∧
    ((deleteListing us L.id s).1 = false ∧
      (deleteListing us L.id s).2.listings = s.listings ∧
      (deleteListing us L.id s).2.error = some errNotOwnerDelete) ∧
    ((setListingStatus now us L.id st s).1 = false ∧
      (setListingStatus now us L.id st s).2.listings = s.listings ∧
      (setListingStatus now us L.id st s).2.error = some errNotOwnerUpdate) := by
  have hfind := getListingById_unique s L hmem huniq
  have hsne : L.sellerId ≠ actor.id := fun hEq => hne hEq.symm
  refine ⟨?_, ?_, ?_⟩ <;>
    [ (unfold updateListing; rw [hcur, hfind]; dsimp only; rw [if_pos hsne]);
      (unfold deleteListing; rw [hcur, hfind]; dsimp only; rw [if_pos hsne]);
      (unfold setListingStatus; rw [hcur, hfind]; dsimp only; rw [if_pos hsne]) ] <;>
    exact ⟨rfl, rfl, rfl⟩

/-- A listing owned by the second user "u2". -/
def bobListing : Listing :=
  { id := "L9", createdAt := 0, updatedAt := 0, sellerId := "u2",
    sellerName := "bobby", title := "Zelda cart", shortDescription := "s",
    detailedDescription := "d", listingType := ListingType.sell,
    category := Category.videoGame, price := "10", location := "X",
    isRemote := false, contactInfo := "y@z", tags := [],
    images := [{ id := "I1", url := "u", isPrimary := true }],
    status := ListingStatus.active }

/-- A listing store holding exactly Bob's listing. -/
def bobListingState : ListingState := { listings := [bobListing] }

/-- Concrete nondeterminism for `updateListing` in the witnesses. -/
def demoUpdateEnv : UpdateEnv := { now := 5, imageIdAt := fun _ => "img" }

/-- Witness for C1: Alice (id "u1") attacking Bob's listing (seller "u2")
fails on all three mutating operations and mutates nothing. -/
theorem mutations_by_non_owner_fail_witness :
    ((updateListing demoUpdateEnv aliceActiveState bobListing.id {} [] bobListingState).1 = none ∧
      (updateListing demoUpdateEnv aliceActiveState bobListing.id {} [] bobListingState).2.listings
        = bobListingState.listings ∧
      (updateListing demoUpdateEnv aliceActiveState bobListing.id {} [] bobListingState).2.error
        = some errNotOwnerUpdate) ∧
    ((deleteListing aliceActiveState bobListing.id bobListingState).1 = false ∧
      (deleteListing aliceActiveState bobListing.id bobListingState).2.listings
        = bobListingState.listings ∧
      (deleteListing aliceActiveState bobListing.id bobListingState).2.error
        = some errNotOwnerDelete) ∧
    ((setListingStatus 5 aliceActiveState bobListing.id ListingStatus.sold bobListingState).1 = false ∧
      (setListingStatus 5 aliceActiveState bobListing.id ListingStatus.sold bobListingState).2.listings
        = bobListingState.listings ∧
      (setListingStatus 5 aliceActiveState bobListing.id ListingStatus.sold bobListingState).2.error
        = some errNotOwnerUpdate) :=
  mutations_by_non_owner_fail demoUpdateEnv 5 aliceActiveState {} [] ListingStatus.sold
    bobListingState bobListing aliceProfile (by decide) (by decide) (by decide) (by decide)

/-- Every image descriptor `updateListing` builds for an uploaded file is
flagged non-primary. -/
theorem mkAppendedImages_not_primary (env : UpdateEnv) (files : List ImageFile) :
    ∀ img ∈ mkAppendedImages env files, img.isPrimary = false := by
  intro img hmemImg
  simp only [mkAppendedImages, List.mem_map] at hmemImg
  rcases hmemImg with ⟨fi, _, rfl⟩
  rfl

/-- Promoting the head of a list with no primary image yields exactly one
primary image. -/
theorem countP_promoteFirst_eq_one (l : List ListingImage) (hne : l ≠ [])
    (h0 : l.countP (fun i => i.isPrimary) = 0) :
    (promoteFirst l).countP (fun i => i.isPrimary) = 1 := by
  cases l with
  | nil => exact absurd rfl hne
  | cons a t =>
    rw [List.countP_cons] at h0
    have h0t : t.countP (fun i => i.isPrimary) = 0 := by omega
    rw [promoteFirst, List.countP_cons, h0t]
    simp

/-- When some image is already primary the repair step is the identity. -/
theorem repairPrimary_of_any_true (l : List ListingImage)
    (h : l.any (fun i => i.isPrimary) = true) : repairPrimary l = l := by
  rw [repairPrimary, h]
  simp

/-- When no image is primary and the list is non-empty the repair step
promotes the first image. -/
theorem repairPrimary_of_any_false (l : List ListingImage)
    (h : l.any (fun i => i.isPrimary) = false) (hlen : l.length > 0) :
    repairPrimary l = promoteFirst l := by
  rw [repairPrimary, h]
  simp [hlen]

/-- C4 (amended): appending a non-empty batch of images to an owned listing
adds them all as non-primary; when the listing already had a primary image
the stored image list is extended unchanged (so the same image stays
primary); when the listing had no images the first appended image is
promoted to primary; and provided the listing held at most one primary image
beforehand, the result holds exactly one. -/
theorem update_images_primary_behavior (env : UpdateEnv) (us : UserState)
    (patch : ListingFormPatch) (files : List ImageFile) (s : ListingState)
    (L : Listing) (actor : UserProfile)
    (hmem : L ∈ s.listings) (huniq : ∀ L2 ∈ s.listings, L2.id = L.id → L2 = L)
    (hcur : getCurrentUser us = some actor) (hown : L.sellerId = actor.id)
    (hfiles : files ≠ []) :
    ∃ L2, (updateListing env us L.id patch files s).1 = some L2 ∧
      (∀ img ∈ mkAppendedImages env files, img.isPrimary = false) ∧
      (L.images.any (fun i => i.isPrimary) = true →
        L2.images = L.images ++ mkAppendedImages env files) ∧
      (L.images = [] →
        L2.images = promoteFirst (mkAppendedImages env files) ∧
        L2.images.head?.map (fun i => i.isPrimary) = some true) ∧
      (L.images.countP (fun i => i.isPrimary) ≤ 1 →
        L2.images.countP (fun i => i.isPrimary) = 1) := by
  have hfind := getListingById_unique s L hmem huniq
  have hnotne : ¬(L.sellerId ≠ actor.id) := fun hc => hc hown
  have hlen : files.length > 0 := List.length_pos.mpr hfiles
  have hmknil : mkAppendedImages env files ≠ [] := by
    simp [mkAppendedImages]
    exact hfiles
  have hmkfalse := mkAppendedImages_not_primary env files
  have hmklen : (mkAppendedImages env files).length > 0 := List.length_pos.mpr hmknil
  have hanymk : (mkAppendedImages env files).any (fun i => i.isPrimary) = false := by
    rw [List.any_eq_false]
    intro a ha
    simp [hmkfalse a ha]
  have hmkcount : (mkAppendedImages env files).countP (fun i => i.isPrimary) = 0 := by
    rw [List.countP_eq_zero]
    intro a ha
    simp [hmkfalse a ha]
  unfold updateListing
  rw [hcur, hfind]
  dsimp only
  rw [if_neg hnotne]
  dsimp only
  rw [if_pos hlen]
  refine ⟨_, rfl, hmkfalse, ?_, ?_, ?_⟩
  · intro hp
    have happ : (L.images ++ mkAppendedImages env files).any (fun i => i.isPrimary) = true := by
      rw [List.any_append, hp, Bool.true_or]
    simp only [repairPrimary_of_any_true _ happ]
  · intro hempty
    constructor
    · simp only [hempty, List.nil_append]
      exact repairPrimary_of_any_false _ hanymk hmklen
    · simp only [hempty, List.nil_append,
        repairPrimary_of_any_false _ hanymk hmklen]
      rcases hmk : mkAppendedImages env files with _ | ⟨a, t⟩
      · exact absurd hmk hmknil
      · simp [promoteFirst]
  · intro hle
    by_cases hp : L.images.any (fun i => i.isPrimary) = true
    · have happ : (L.images ++ mkAppendedImages env files).any (fun i => i.isPrimary) = true := by
        rw [List.any_append, hp, Bool.true_or]
      rw [repairPrimary_of_any_true _ happ, List.countP_append, hmkcount]
      have hpos : 0 < L.images.countP (fun i => i.isPrimary) := by
        rw [List.countP_pos_iff]
        rw [List.any_eq_true] at hp
        exact hp
      omega
    · have hpf : L.images.any (fun i => i.isPrimary) = false := Bool.eq_false_iff.mpr hp
      have hp0 : L.images.countP (fun i => i.isPrimary) = 0 := by
        rw [List.countP_eq_zero]
        rw [List.any_eq_false] at hpf
        exact hpf
      have hanyfalse :
          (L.images ++ mkAppendedImages env files).any (fun i => i.isPrimary) = false := by
        rw [List.any_append, hpf, hanymk]
        rfl
      have happlen : (L.images ++ mkAppendedImages env files).length > 0 := by
        rw [List.length_append]
        omega
      have happne : L.images ++ mkAppendedImages env files ≠ [] := by
        intro hcEq
        rw [hcEq] at happlen
        simp at happlen
      rw [repairPrimary_of_any_false _ hanyfalse happlen]
      apply countP_promoteFirst_eq_one _ happne
      rw [List.countP_append, hp0, hmkcount]

/-- A listing owned by Alice that illegally carries two primary images. -/
def twoPrimaryListing : Listing :=
  { id := "L2", createdAt := 0, updatedAt := 0, sellerId := "u1",
    sellerName := "Alice", title := "Cart", shortDescription := "s",
    detailedDescription := "d", listingType := ListingType.sell,
    category := Category.videoGame, price := "10", location := "X",
    isRemote := false, contactInfo := "y@z", tags := [],
    images := [{ id := "I1", url := "a", isPrimary := true },
               { id := "I2", url := "b", isPrimary := true }],
    status := ListingStatus.active }

/-- A listing store holding exactly the two-primary listing. -/
def twoPrimaryState : ListingState := { listings := [twoPrimaryListing] }

/-- An uploaded file carrying a direct URL. -/
def demoFile : ImageFile := { name := "pic", customUrl := some "http://pic" }

/-- C4 counterexample: Alice's listing already contains a primary image (two,
in fact); appending one image leaves both primary flags in place, so the
resulting non-empty image list carries two primary images, not exactly one —
the store only repairs the zero-primary case. -/
theorem update_images_two_primaries_counterexample :
    twoPrimaryListing.images.any (fun i => i.isPrimary) = true ∧
    (updateListing demoUpdateEnv aliceActiveState "L2" {} [demoFile] twoPrimaryState).1.map
        (fun L2 => L2.images.countP (fun i => i.isPrimary)) = some 2 := by
  decide

/-- A listing owned by Alice holding a single primary image. -/
def onePrimaryListing : Listing :=
  { twoPrimaryListing with
    id := "L3",
    images := [{ id := "I1", url := "a", isPrimary := true },
               { id := "I2", url := "b", isPrimary := false }] }

/-- A listing store holding exactly the one-primary listing. -/
def onePrimaryState : ListingState := { listings := [onePrimaryListing] }

/-- Witness for the amended C4: appending one image to Alice's listing with
one primary image keeps the old list intact, adds the image as non-primary,
and the result has exactly one primary image. -/
theorem update_images_primary_behavior_witness :
    ∃ L2, (updateListing demoUpdateEnv aliceActiveState "L3" {} [demoFile] onePrimaryState).1
        = some L2 ∧
      (∀ img ∈ mkAppendedImages demoUpdateEnv [demoFile], img.isPrimary = false) ∧
      (onePrimaryListing.images.any (fun i => i.isPrimary) = true →
        L2.images = onePrimaryListing.images ++ mkAppendedImages demoUpdateEnv [demoFile]) ∧
      (onePrimaryListing.images = [] →
        L2.images = promoteFirst (mkAppendedImages demoUpdateEnv [demoFile]) ∧
        L2.images.head?.map (fun i => i.isPrimary) = some true) ∧
      (onePrimaryListing.images.countP (fun i => i.isPrimary) ≤ 1 →
        L2.images.countP (fun i => i.isPrimary) = 1) := by
  have h := update_images_primary_behavior demoUpdateEnv aliceActiveState {} [demoFile]
    onePrimaryState onePrimaryListing aliceProfile (by decide) (by decide) (by decide)
    (by decide) (by decide)
  exact h

end TradingGamers
